import Mathlib

/-!
Shallow embedding of the apimana API-gateway composition engine
(`src/configs/router_loader.py`, `src/configs/config_manager.py`,
`src/main.py`) together with theorems about its specified behaviour.

Python dictionaries are embedded as association lists with
insertion-order preserving update (`dictSet`), Python values appearing in
configurations as the inductive `Value`, and the effects of the original
methods on their objects as explicit state passing.
-/

set_option maxRecDepth 4000

/-- Decimal model of a CPython float value: `num / 10 ^ frac`.  The
claims about the program touch only the type of a float value and the
success or failure of parsing, never float arithmetic. -/
structure PyFloat where
  num : Int
  frac : Nat
deriving DecidableEq, Repr

/-- A Python value as it occurs in the gateway's configuration data:
bool, int, float or str.  (`isinstance` checks in the source distinguish
exactly these four.) -/
inductive Value where
  | vBool (b : Bool)
  | vInt (n : Int)
  | vFloat (f : PyFloat)
  | vStr (s : String)
deriving DecidableEq, Repr

/-- The runtime type tag of a `Value` (what `isinstance` dispatches on in
`DynamicConfigLoader._convert_env_value`). -/
inductive VType where
  | tBool | tInt | tFloat | tStr
deriving DecidableEq, Repr

def typeTag : Value → VType
  | .vBool _ => .tBool
  | .vInt _ => .tInt
  | .vFloat _ => .tFloat
  | .vStr _ => .tStr

/-- Python truthiness of a `Value` (`bool(x)`). -/
def truthy : Value → Bool
  | .vBool b => b
  | .vInt n => n != 0
  | .vFloat f => f.num != 0
  | .vStr s => s != ""

/-- Model of Python `str()` on the embedded values.  `str(True) = "True"`,
integers print in decimal, strings are unchanged; floats render their
decimal form (`45.0`-style), without normalisation of trailing zeros. -/
def pyStr : Value → String
  | .vBool true => "True"
  | .vBool false => "False"
  | .vInt n => toString n
  | .vFloat f =>
      let sgn := if f.num < 0 then "-" else ""
      let m := f.num.natAbs
      if f.frac = 0 then sgn ++ toString m ++ ".0"
      else
        let digits := toString m
        let digits := String.mk (List.replicate (f.frac + 1 - digits.length) '0') ++ digits
        let cut := digits.length - f.frac
        sgn ++ String.mk (digits.toList.take cut) ++ "." ++ String.mk (digits.toList.drop cut)
  | .vStr s => s

/-- Digit run with Python's grouping underscores: nonempty, starts and
ends with a digit, no two adjacent underscores.  `acc` is the value so
far, `last` whether the previous character was a digit. -/
def parse_digits_go : List Char → Nat → Bool → Option Nat
  | [], acc, true => some acc
  | [], _, false => none
  | c :: rest, acc, last =>
    if c.isDigit then parse_digits_go rest (acc * 10 + (c.toNat - 48)) true
    else if c = '_' && last then parse_digits_go rest acc false
    else none

def parse_digits (l : List Char) : Option Nat :=
  parse_digits_go l 0 false

/-- Plain digit run, no underscores; empty list parses to `0`. -/
def dec_digits_opt : List Char → Option Nat
  | [] => some 0
  | c :: rest =>
    if c.isDigit then (dec_digits_opt rest).map (fun n => (c.toNat - 48) * 10 ^ rest.length + n)
    else none

def strip_ws (l : List Char) : List Char :=
  ((l.dropWhile Char.isWhitespace).reverse.dropWhile Char.isWhitespace).reverse

/-- Model of Python `int(s)` on decimal string literals: surrounding
whitespace, an optional sign, then an underscore-grouped digit run;
anything else raises `ValueError`, modelled as `none`. -/
def pyParseInt (s : String) : Option Int :=
  match strip_ws s.toList with
  | '+' :: rest => (parse_digits rest).map Int.ofNat
  | '-' :: rest => (parse_digits rest).map (fun n => -(Int.ofNat n))
  | l => (parse_digits l).map Int.ofNat

/-- Model of Python `float(s)` on plain decimal literals (optional sign,
digits, optional point and fraction digits; no exponent, grouping or
inf/nan forms, which this program never feeds it). -/
def pyParseFloat (s : String) : Option PyFloat :=
  let core : List Char → Option PyFloat := fun l =>
    let ip := l.takeWhile (· ≠ '.')
    match l.dropWhile (· ≠ '.') with
    | [] => (dec_digits_opt l).map (fun n => ⟨Int.ofNat n, 0⟩)
    | _ :: fp =>
      if fp.any (· = '.') then none
      else if ip.isEmpty && fp.isEmpty then none
      else match dec_digits_opt ip, dec_digits_opt fp with
        | some i, some f => some ⟨Int.ofNat (i * 10 ^ fp.length + f), fp.length⟩
        | _, _ => none
  match strip_ws s.toList with
  | '+' :: rest => if rest.isEmpty then none else core rest
  | '-' :: rest =>
      if rest.isEmpty then none
      else (core rest).map (fun f => ⟨-f.num, f.frac⟩)
  | [] => none
  | l => core l

/-- Python `pat in hay` on strings: substring containment. -/
def str_contains (hay pat : String) : Bool :=
  (List.range (hay.toList.length + 1)).any
    (fun i => pat.toList.isPrefixOf (hay.toList.drop i))

/-- First-match lookup in an association list (Python `d.get(k)` /
`d[k]`; keys of a Python dict are unique, so first match is the match). -/
def dlookup {α : Type} (k : String) : List (String × α) → Option α
  | [] => none
  | kv :: rest => if kv.1 = k then some kv.2 else dlookup k rest

/-- Python `d[k] = v`: replace the value in place when the key exists
(keeping its position, as dicts preserve insertion order), else append. -/
def dictSet {α : Type} (k : String) (v : α) : List (String × α) → List (String × α)
  | [] => [(k, v)]
  | kv :: rest => if kv.1 = k then (kv.1, v) :: rest else kv :: dictSet k v rest

/-- Python `del d[k]` (no-op when absent; callers guard with `in`). -/
def dictDel {α : Type} (k : String) : List (String × α) → List (String × α)
  | [] => []
  | kv :: rest => if kv.1 = k then rest else kv :: dictDel k rest

theorem dlookup_dictSet {α : Type} (k k' : String) (v : α) (d : List (String × α)) :
    dlookup k' (dictSet k v d) = if k' = k then some v else dlookup k' d := by
  induction d with
  | nil =>
    by_cases h : k' = k
    · subst h; simp [dictSet, dlookup]
    · simp [dictSet, dlookup, h, Ne.symm h]
  | cons kv rest ih =>
    by_cases hk : kv.1 = k
    · by_cases h' : k' = k
      · subst h'; simp [dictSet, dlookup, hk]
      · have h2 : kv.1 ≠ k' := by rw [hk]; exact Ne.symm h'
        simp [dictSet, dlookup, hk, h', h2, Ne.symm h']
    · by_cases h2 : kv.1 = k'
      · have h3 : ¬ k' = k := by rw [← h2]; exact fun hc => hk hc
        simp [dictSet, dlookup, hk, h2, h3]
      · simp [dictSet, dlookup, hk, h2, ih]

theorem dlookup_dictSet_self {α : Type} (k : String) (v : α) (d : List (String × α)) :
    dlookup k (dictSet k v d) = some v := by
  simp [dlookup_dictSet]

theorem dlookup_dictSet_ne {α : Type} {k k' : String} (v : α) (d : List (String × α))
    (h : k' ≠ k) : dlookup k' (dictSet k v d) = dlookup k' d := by
  simp [dlookup_dictSet, h]

/-! ## Router model (`src/configs/router_loader.py`) -/

/-- One entry of `APIRouter.routes`: the attributes the loader reads
(`getattr(route, 'path', '')`, `getattr(route, 'name', '')`). -/
structure Route where
  path : String
  name : String
deriving DecidableEq, Repr

/-- The slice of a FastAPI `APIRouter` the loader manipulates: its mount
path (`pfx` embeds the constructor argument the source spells as the
router's path-prefix attribute) and its route list. -/
structure Router where
  pfx : String
  routes : List Route
deriving DecidableEq, Repr

/-- `RouterConfig` dataclass.  `pfx` embeds the dataclass field holding
the mount path-prefix string. -/
structure RouterConfig where
  service_name : String
  module_path : String
  router_name : String := "router"
  pfx : String := ""
  include_endpoints : Option (List String) := none
  exclude_endpoints : Option (List String) := none
  config_name : Option String := none
  dependencies : List String := []
deriving DecidableEq, Repr

/-- Python truthiness of an `Optional[Set[str]]`: `None` and the empty
set are both falsy. -/
def truthy_tokens : Option (List String) → Bool
  | none => false
  | some l => !l.isEmpty

def truthy_opt_str : Option String → Bool
  | none => false
  | some s => s != ""

/-- `RouterConfig.__post_init__`: default the mount path to
`/{service_name}` and the config group name to the service name. -/
def post_init (c : RouterConfig) : RouterConfig :=
  let c1 := if c.pfx = "" then { c with pfx := "/" ++ c.service_name } else c
  if truthy_opt_str c1.config_name = false
  then { c1 with config_name := some c1.service_name } else c1

/-- One route's match against a token set, as in
`_filter_router_endpoints`: exact route name, exact path, or any token
occurring as a substring of the path. -/
def route_matches (tokens : List String) (r : Route) : Bool :=
  tokens.contains r.name || tokens.contains r.path ||
    tokens.any (fun endpoint => str_contains r.path endpoint)

/-- The per-route inclusion decision of `_filter_router_endpoints`:
included by default; if the include set is truthy, included only on an
include match; then, if the exclude set is truthy and the route is still
included, excluded on an exclude match. -/
def should_include (cfg : RouterConfig) (r : Route) : Bool :=
  let s1 := true
  let s2 := if truthy_tokens cfg.include_endpoints
            then route_matches (cfg.include_endpoints.getD []) r else s1
  if truthy_tokens cfg.exclude_endpoints && s2
  then !(route_matches (cfg.exclude_endpoints.getD []) r)
  else s2

/-- `DynamicRouterLoader._filter_router_endpoints`: build a fresh router
carrying the config's mount path and append each surviving route of the
original, in order. -/
def filter_router_endpoints (cfg : RouterConfig) (original_router : Router) : Router :=
  original_router.routes.foldl
    (fun nr route =>
      if should_include cfg route then { nr with routes := nr.routes ++ [route] } else nr)
    { pfx := cfg.pfx, routes := [] }

/-- Outcome of the import machinery for one load attempt, as observed by
`load_router_from_path`: the module spec cannot be built (an
`ImportError` is raised), the module's top level raises during
execution, or a module object with its attribute dictionary is
produced.  (The `sys.path` bookkeeping of `add_external_path` touches
only the interpreter's import search path and is not modelled.) -/
inductive ResolveOutcome where
  | specFail
  | execRaises (msg : String)
  | moduleOk (attrs : List (String × Router))
deriving DecidableEq, Repr

/-- Mutable state of a `DynamicRouterLoader` object. -/
structure LoaderState where
  loaded_routers : List (String × Router) := []
  failed_loads : List (String × String) := []
  router_configs : List RouterConfig := []
deriving DecidableEq, Repr

/-- The `error_msg` built in the `except` arm of `load_router_from_path`. -/
def fail_msg (cfg : RouterConfig) (cause : String) : String :=
  "Failed to load router for " ++ cfg.service_name ++ ": " ++ cause

def record_failure (st : LoaderState) (cfg : RouterConfig) (cause : String) : LoaderState :=
  { st with failed_loads := dictSet cfg.service_name (fail_msg cfg cause) st.failed_loads }

def apos : Char := Char.ofNat 39

/-- `str()` of the `AttributeError` raised for a missing router attribute. -/
def missing_attr_msg (cfg : RouterConfig) : String :=
  "Module " ++ cfg.module_path ++ " does not have attribute " ++
    String.mk (apos :: cfg.router_name.toList ++ [apos])

/-- `DynamicRouterLoader.load_router_from_path`, with the import world
passed in as an oracle: any raised exception is caught, recorded in
`failed_loads` under the service name, and turned into `none`; a
retrieved router (filtered when include/exclude sets are truthy) is
recorded in `loaded_routers` and returned. -/
def load_router_from_path (world : RouterConfig → ResolveOutcome)
    (st : LoaderState) (cfg : RouterConfig) : LoaderState × Option Router :=
  match world cfg with
  | .specFail =>
      (record_failure st cfg ("Could not load spec from " ++ cfg.module_path), none)
  | .execRaises m => (record_failure st cfg m, none)
  | .moduleOk attrs =>
    match dlookup cfg.router_name attrs with
    | some original_router =>
      if truthy_tokens cfg.include_endpoints || truthy_tokens cfg.exclude_endpoints then
        let filtered := filter_router_endpoints cfg original_router
        ({ st with loaded_routers := dictSet cfg.service_name filtered st.loaded_routers },
          some filtered)
      else
        ({ st with loaded_routers := dictSet cfg.service_name original_router st.loaded_routers },
          some original_router)
    | none => (record_failure st cfg (missing_attr_msg cfg), none)

/-- Whether a load attempt with the given import outcome succeeds
(reaches the `return` of a router rather than the `except` arm). -/
def load_succeeds (cfg : RouterConfig) (oc : ResolveOutcome) : Bool :=
  match oc with
  | .moduleOk attrs => (dlookup cfg.router_name attrs).isSome
  | _ => false

/-- A sequence of `load_router_from_path` calls, each with its own
resolution outcome, applied to a loader state. -/
def run_loads : LoaderState → List (RouterConfig × ResolveOutcome) → LoaderState
  | st, [] => st
  | st, ev :: rest => run_loads (load_router_from_path (fun _ => ev.2) st ev.1).1 rest

/-- Combined state of the FastAPI app (its mounted `(prefix, router)`
pairs) and the loader object. -/
structure GState where
  app : List (String × Router) := []
  loader : LoaderState := {}
deriving DecidableEq, Repr

/-- Behaviour of `app.include_router` (the external transport attach):
it may extend the mount list or raise. -/
def MountFn : Type :=
  List (String × Router) → String → Router → Except String (List (String × Router))

/-- `DynamicRouterLoader.load_router`: load, then mount under the
config's path and append to `router_configs` on success.  A raise from
the mount call propagates (`Except.error`), with all mutations made
before the raise kept in the returned state. -/
def load_router (world : RouterConfig → ResolveOutcome) (mount : MountFn)
    (st : GState) (cfg : RouterConfig) : GState × Except String Bool :=
  let ld := (load_router_from_path world st.loader cfg).1
  match (load_router_from_path world st.loader cfg).2 with
  | none => ({ st with loader := ld }, .ok false)
  | some r =>
    match mount st.app cfg.pfx r with
    | .ok app2 =>
        ({ app := app2, loader := { ld with router_configs := ld.router_configs ++ [cfg] } },
          .ok true)
    | .error e => ({ st with loader := ld }, .error e)

/-- The loop body of `DynamicRouterLoader.load_all_routers`: each config
is processed in turn, a raised exception is caught and recorded as
`False`, and the loop always continues with the remaining configs. -/
def load_all_go (world : RouterConfig → ResolveOutcome) (mount : MountFn) :
    GState → List (String × Bool) → List RouterConfig → GState × List (String × Bool)
  | st, results, [] => (st, results)
  | st, results, cfg :: rest =>
    let b := match (load_router world mount st cfg).2 with | .ok b => b | .error _ => false
    load_all_go world mount (load_router world mount st cfg).1
      (dictSet cfg.service_name b results) rest

/-- `DynamicRouterLoader.load_all_routers`. -/
def load_all_routers (world : RouterConfig → ResolveOutcome) (mount : MountFn)
    (st : GState) (configs : List RouterConfig) : GState × List (String × Bool) :=
  load_all_go world mount st [] configs

/-- `DynamicRouterLoader.reload_router`: drop any prior loaded and
failed entries for the service, then load again. -/
def reload_router (world : RouterConfig → ResolveOutcome) (mount : MountFn)
    (st : GState) (cfg : RouterConfig) : GState × Except String Bool :=
  let ld :=
    { st.loader with
      loaded_routers := dictDel cfg.service_name st.loader.loaded_routers
      failed_loads := dictDel cfg.service_name st.loader.failed_loads }
  load_router world mount { st with loader := ld } cfg

/-- Result of the `/gateway/reload/{service_name}` handler body
(`APIGateway._reload_service`): a success message, a raised
`HTTPException` with status and detail, or an uncaught exception from
the reload machinery. -/
inductive ReloadOutcome where
  | success (msg : String)
  | httpError (status : Nat) (detail : String)
  | raised (e : String)
deriving DecidableEq, Repr

/-- `APIGateway._reload_service`.  `gateway_config` is the dict held by
the gateway object, `loader_present` whether `self.router_loader` is
set, `router_configs` the module-level `ROUTER_CONFIGS` list.  The
returned state is the state at return or raise time. -/
def reload_service (world : RouterConfig → ResolveOutcome) (mount : MountFn)
    (gateway_config : List (String × Value)) (loader_present : Bool)
    (router_configs : List RouterConfig) (st : GState) (service_name : String) :
    GState × ReloadOutcome :=
  if truthy ((dlookup "debug" gateway_config).getD (.vBool false)) = false then
    (st, .httpError 403 "Reload only available in debug mode")
  else if loader_present = false then
    (st, .httpError 500 "Gateway components not initialized")
  else
    match router_configs.find? (fun c => c.service_name == service_name) with
    | none => (st, .httpError 404 ("Service " ++ service_name ++ " not found"))
    | some cfg =>
      let st2 := (reload_router world mount st cfg).1
      match (reload_router world mount st cfg).2 with
      | .ok true => (st2, .success ("Service " ++ service_name ++ " reloaded successfully"))
      | .ok false => (st2, .httpError 500 ("Failed to reload service " ++ service_name))
      | .error e => (st2, .raised e)

/-! ## Config model (`src/configs/config_manager.py`) -/

/-- The two top-level groups of the gateway's YAML configuration data as
the loader stores and accesses them (`config_data.get("gateway", ...)`,
`config_data.get("services", ...)`); an absent group is the empty list. -/
structure ConfigData where
  gateway : List (String × Value) := []
  services : List (String × List (String × Value)) := []
deriving DecidableEq, Repr

/-- `DynamicConfigLoader._get_default_config`. -/
def get_default_config : ConfigData :=
  { gateway :=
      [("host", .vStr "0.0.0.0"), ("port", .vInt 8000), ("debug", .vBool true),
       ("title", .vStr "Dynamic API Gateway"), ("version", .vStr "1.0.0")]
    services := [] }

/-- What reading and parsing the configuration file can produce: the
file is missing, opening or parsing raises, or `yaml.safe_load` returns
a document (`none` models an empty document, for which the source's
`or {}` substitutes an empty dict). -/
inductive FileReadResult where
  | missing
  | ioError (msg : String)
  | ok (data : Option ConfigData)
deriving DecidableEq, Repr

/-- `DynamicConfigLoader.load_config`: a missing file or any raised
error falls back to the built-in defaults; a parsed document is stored
as is (empty document becomes the empty dict). -/
def load_config : FileReadResult → ConfigData
  | .missing => get_default_config
  | .ioError _ => get_default_config
  | .ok none => {}
  | .ok (some d) => d

/-- `DynamicConfigLoader._convert_env_value`: dispatch on the runtime
type of the existing value; a failed `int()`/`float()` conversion
returns the original value. -/
def convert_env_value (env_value : String) (original_value : Value) : Value :=
  match original_value with
  | .vBool _ => .vBool (["true", "1", "yes", "on"].contains env_value.toLower)
  | .vInt n =>
    match pyParseInt env_value with
    | some m => .vInt m
    | none => .vInt n
  | .vFloat f =>
    match pyParseFloat env_value with
    | some g => .vFloat g
    | none => .vFloat f
  | .vStr _ => .vStr env_value

/-- Python `str.upper()` (ASCII uppercasing, which is all the gateway's
service and key names use). -/
def str_upper (s : String) : String :=
  String.mk (s.toList.map Char.toUpper)

/-- The environment-variable name `f"{service_name.upper()}_{key.upper()}"`. -/
def env_key (service_name k : String) : String :=
  str_upper service_name ++ "_" ++ str_upper k

/-- The per-key body of the override loop in `get_service_config`:
convert and substitute the environment value when one exists, else keep
the file value. -/
def apply_override (env : List (String × String)) (service_name k : String)
    (v : Value) : Value :=
  match dlookup (env_key service_name k) env with
  | some env_value => convert_env_value env_value v
  | none => v

/-- `DynamicConfigLoader.get_service_config`.  In the source, the local
`service_config` aliases the dict stored inside `config_data`, and the
loop assigns converted override values into it through that alias; the
returned pair is therefore (the possibly mutated stored data, the
effective config).  When the service has no stored section the local is
a fresh empty dict and the stored data is untouched. -/
def get_service_config (env : List (String × String)) (cd : ConfigData)
    (service_name : String) : ConfigData × List (String × Value) :=
  let service_config := (dlookup service_name cd.services).getD []
  let updated := service_config.map (fun kv =>
    (kv.1, apply_override env service_name kv.1 kv.2))
  let cd2 :=
    if (dlookup service_name cd.services).isSome
    then { cd with services := dictSet service_name updated cd.services }
    else cd
  (cd2, updated)

/-- Shared mutable state of a `UnifiedConfigManager` and its parts: the
loader's `config_data`, the process environment `os.environ`, the
injector's `injected_configs` and the manager's `service_settings`. -/
structure CMState where
  config_data : ConfigData := {}
  os_env : List (String × String) := []
  injected_configs : List (String × List (String × Value)) := []
  service_settings : List (String × List (String × Value)) := []
deriving DecidableEq, Repr

/-- The injection loop of `ConfigInjector.inject_service_config`:
`target_env[f"{prefix}{key.upper()}"] = str(value)` for each item. -/
def inject_env_writes (service_name : String) (sc : List (String × Value))
    (e : List (String × String)) : List (String × String) :=
  sc.foldl (fun acc kv => dictSet (env_key service_name kv.1) (pyStr kv.2) acc) e

/-- `ConfigInjector.inject_service_config`: read the effective service
config (mutating the stored data through the alias, see
`get_service_config`), write each item into the target environment —
`os.environ` when no target is given — and record the config in
`injected_configs`.  Returns (new shared state, the explicit target
environment after writing when one was given, the returned config). -/
def inject_service_config (st : CMState) (service_name : String)
    (target_env : Option (List (String × String))) :
    CMState × Option (List (String × String)) × List (String × Value) :=
  let r := get_service_config st.os_env st.config_data service_name
  let sc := r.2
  match target_env with
  | none =>
    ({ st with
        config_data := r.1
        os_env := inject_env_writes service_name sc st.os_env
        injected_configs := dictSet service_name sc st.injected_configs },
      none, sc)
  | some t =>
    ({ st with
        config_data := r.1
        injected_configs := dictSet service_name sc st.injected_configs },
      some (inject_env_writes service_name sc t), sc)

/-- `UnifiedConfigManager.setup_service_config`: inject into the process
environment, read the effective config again, store it in
`service_settings`, and return the injected config. -/
def setup_service_config (st : CMState) (service_name : String) :
    CMState × List (String × Value) :=
  let r1 := inject_service_config st service_name none
  let st1 := r1.1
  let r2 := get_service_config st1.os_env st1.config_data service_name
  ({ st1 with
      config_data := r2.1
      service_settings := dictSet service_name r2.2 st1.service_settings },
    r1.2.2)

/-! ## Shared lemmas -/

theorem filter_foldl_routes (cfg : RouterConfig) (l : List Route) (acc : Router) :
    l.foldl
      (fun nr route =>
        if should_include cfg route then { nr with routes := nr.routes ++ [route] } else nr)
      acc
    = { acc with routes := acc.routes ++ l.filter (should_include cfg) } := by
  induction l generalizing acc with
  | nil => simp
  | cons r rest ih =>
    by_cases h : should_include cfg r
    · simp [List.foldl_cons, h, ih, List.filter_cons]
    · simp [List.foldl_cons, h, ih, List.filter_cons]

theorem filter_router_endpoints_eq_filter (cfg : RouterConfig) (orig : Router) :
    filter_router_endpoints cfg orig
      = { pfx := cfg.pfx, routes := orig.routes.filter (should_include cfg) } := by
  rw [filter_router_endpoints, filter_foldl_routes]; simp

theorem dlookup_map_keys {α β : Type} (g : String → α → β) (l : List (String × α)) (k : String) :
    dlookup k (l.map (fun kv => (kv.1, g kv.1 kv.2))) = (dlookup k l).map (g k) := by
  induction l with
  | nil => simp [dlookup]
  | cons kv rest ih =>
    by_cases h : kv.1 = k
    · subst h; simp [dlookup, ih]
    · simp [dlookup, h, ih]

/-! ## C3: endpoint filtering semantics -/

/-- C3.  Endpoint filtering: routes are considered in collection order
and kept exactly when the per-route decision holds; a route is included
by default (both sets absent); with an include set present a route not
matching any include token is dropped; a route matching an exclude
token of a present exclude set is dropped even when it also matches an
include token (exclude wins); and on the routes
{/users, /users/{id}, /admin} with include={/users} and
exclude={/users/{id}} the filtered collection is exactly /users. -/
theorem endpoint_filter_semantics :
    (∀ cfg orig, (filter_router_endpoints cfg orig).routes
        = orig.routes.filter (should_include cfg))
    ∧ (∀ cfg r, truthy_tokens cfg.include_endpoints = false →
        truthy_tokens cfg.exclude_endpoints = false → should_include cfg r = true)
    ∧ (∀ cfg r, truthy_tokens cfg.exclude_endpoints = true →
        route_matches (cfg.exclude_endpoints.getD []) r = true →
        should_include cfg r = false)
    ∧ (∀ cfg r, truthy_tokens cfg.include_endpoints = true →
        route_matches (cfg.include_endpoints.getD []) r = false →
        should_include cfg r = false)
    ∧ filter_router_endpoints
        { service_name := "s", module_path := "m", pfx := "/s",
          include_endpoints := some ["/users"], exclude_endpoints := some ["/users/{id}"] }
        ⟨"", [⟨"/users", "get_users"⟩, ⟨"/users/{id}", "get_user"⟩, ⟨"/admin", "admin_panel"⟩]⟩
      = ⟨"/s", [⟨"/users", "get_users"⟩]⟩ := by
  refine ⟨?_, ?_, ?_, ?_, ?_⟩
  · intro cfg orig; rw [filter_router_endpoints_eq_filter]
  · intro cfg r h1 h2; simp [should_include, h1, h2]
  · intro cfg r he hm
    cases hti : truthy_tokens cfg.include_endpoints with
    | false => simp [should_include, he, hm, hti]
    | true =>
      cases hmi : route_matches (cfg.include_endpoints.getD []) r with
      | false => simp [should_include, he, hm, hti, hmi]
      | true => simp [should_include, he, hm, hti, hmi]
  · intro cfg r hi hm; simp [should_include, hi, hm]
  · decide

theorem endpoint_filter_semantics_witness :
    should_include { service_name := "s", module_path := "m" } ⟨"/x", "x"⟩ = true
    ∧ should_include
        { service_name := "s", module_path := "m",
          include_endpoints := some ["/a"], exclude_endpoints := some ["/a"] }
        ⟨"/a", "a"⟩ = false
    ∧ should_include
        { service_name := "s", module_path := "m", include_endpoints := some ["/a"] }
        ⟨"/b", "b"⟩ = false :=
  ⟨endpoint_filter_semantics.2.1 _ _ (by decide) (by decide),
   endpoint_filter_semantics.2.2.1 _ _ (by decide) (by decide),
   endpoint_filter_semantics.2.2.2.1 _ _ (by decide) (by decide)⟩

/-! ## C4: environment override coercion -/

/-- C4.  An environment override string is coerced to the runtime type
of the existing file value, so the effective value always has the file
value's type; a failed int or float conversion returns the file value
unchanged; `get_service_config` applies exactly this conversion to each
key that has a matching environment variable; and for a file value 30
with env "45" the effective value is 45, with env "abc" it stays 30. -/
theorem env_override_coercion :
    (∀ s v, typeTag (convert_env_value s v) = typeTag v)
    ∧ (∀ s n, pyParseInt s = none → convert_env_value s (.vInt n) = .vInt n)
    ∧ (∀ s f, pyParseFloat s = none → convert_env_value s (.vFloat f) = .vFloat f)
    ∧ (∀ env cd name k v s,
        dlookup k ((dlookup name cd.services).getD []) = some v →
        dlookup (env_key name k) env = some s →
        dlookup k (get_service_config env cd name).2 = some (convert_env_value s v))
    ∧ dlookup "timeout"
        (get_service_config [("SVC_TIMEOUT", "45")]
          ⟨[], [("svc", [("timeout", Value.vInt 30)])]⟩ "svc").2 = some (Value.vInt 45)
    ∧ dlookup "timeout"
        (get_service_config [("SVC_TIMEOUT", "abc")]
          ⟨[], [("svc", [("timeout", Value.vInt 30)])]⟩ "svc").2 = some (Value.vInt 30) := by
  refine ⟨?_, ?_, ?_, ?_, ?_, ?_⟩
  · intro s v
    cases v with
    | vBool b => simp [convert_env_value, typeTag]
    | vInt n => cases h : pyParseInt s <;> simp [convert_env_value, typeTag, h]
    | vFloat f => cases h : pyParseFloat s <;> simp [convert_env_value, typeTag, h]
    | vStr t => simp [convert_env_value, typeTag]
  · intro s n h; simp [convert_env_value, h]
  · intro s f h; simp [convert_env_value, h]
  · intro env cd name k v s hv hs
    show dlookup k (get_service_config env cd name).2 = some (convert_env_value s v)
    simp only [get_service_config]
    rw [dlookup_map_keys, hv]
    simp [apply_override, hs]
  · decide
  · decide

theorem env_override_coercion_witness :
    convert_env_value "abc" (.vInt 30) = .vInt 30
    ∧ convert_env_value "abc" (.vFloat ⟨300, 1⟩) = .vFloat ⟨300, 1⟩
    ∧ dlookup "timeout"
        (get_service_config [("SVC_TIMEOUT", "45")]
          ⟨[], [("svc", [("timeout", Value.vInt 30)])]⟩ "svc").2
      = some (convert_env_value "45" (Value.vInt 30)) :=
  ⟨env_override_coercion.2.1 "abc" 30 (by decide),
   env_override_coercion.2.2.1 "abc" ⟨300, 1⟩ (by decide),
   env_override_coercion.2.2.2.1 [("SVC_TIMEOUT", "45")]
     ⟨[], [("svc", [("timeout", Value.vInt 30)])]⟩ "svc" "timeout" (Value.vInt 30) "45"
     (by decide) (by decide)⟩

/-! ## C5: built-in default configuration -/

/-- C5 counterexample: the built-in fallback gateway config has the
debug flag enabled, not disabled as claimed. -/
theorem config_default_debug_counterexample :
    dlookup "debug" (load_config .missing).gateway = some (Value.vBool true)
    ∧ dlookup "debug" (load_config .missing).gateway ≠ some (Value.vBool false) := by
  decide

/-- C5 (amended).  A missing configuration file, or any error raised
while reading or parsing it, recoverably falls back to the fixed
built-in defaults: wildcard host "0.0.0.0", port 8000, the debug flag
enabled, and an empty service map. -/
theorem config_fallback_defaults :
    load_config .missing = get_default_config
    ∧ (∀ m, load_config (.ioError m) = get_default_config)
    ∧ dlookup "host" get_default_config.gateway = some (Value.vStr "0.0.0.0")
    ∧ dlookup "port" get_default_config.gateway = some (Value.vInt 8000)
    ∧ dlookup "debug" get_default_config.gateway = some (Value.vBool true)
    ∧ get_default_config.services = [] :=
  ⟨rfl, fun _ => rfl, by decide, by decide, by decide, rfl⟩

/-! ## C6: reads mutate the stored configuration -/

/-- C6: evaluation of the code at the failing input.  With the file
value `timeout = 30` and the override `SVC_TIMEOUT=45` present, one
`get_service_config` call writes the coerced override back into the
stored `config_data` through the aliased inner dict, and a second call
with the override removed from the environment still returns 45 (the
claim expects the stored data unchanged and the second read to yield
30). -/
theorem get_service_config_mutates_stored :
    (get_service_config [("SVC_TIMEOUT", "45")]
        ⟨[], [("svc", [("timeout", Value.vInt 30)])]⟩ "svc").1
      = ⟨[], [("svc", [("timeout", Value.vInt 45)])]⟩
    ∧ dlookup "timeout"
        (get_service_config []
          (get_service_config [("SVC_TIMEOUT", "45")]
            ⟨[], [("svc", [("timeout", Value.vInt 30)])]⟩ "svc").1 "svc").2
      = some (Value.vInt 45)
    ∧ dlookup "timeout"
        (get_service_config []
          (get_service_config [("SVC_TIMEOUT", "45")]
            ⟨[], [("svc", [("timeout", Value.vInt 30)])]⟩ "svc").1 "svc").2
      ≠ some (Value.vInt 30) := by
  decide

/-! ## C7: reload gating -/

/-- C7.  When the gateway's effective debug flag is falsy, the reload
handler fails with HTTP 403 ("Reload only available in debug mode")
before touching the loader, so the Mount Registry — and all the rest of
the gateway state — is returned unchanged. -/
theorem reload_gating_atomic (world : RouterConfig → ResolveOutcome) (mount : MountFn)
    (gateway_config : List (String × Value)) (loader_present : Bool)
    (router_configs : List RouterConfig) (st : GState) (service_name : String)
    (h : truthy ((dlookup "debug" gateway_config).getD (.vBool false)) = false) :
    reload_service world mount gateway_config loader_present router_configs st service_name
      = (st, .httpError 403 "Reload only available in debug mode") := by
  simp [reload_service, h]

theorem reload_gating_atomic_witness :
    reload_service (fun _ => .specFail) (fun a p r => .ok (a ++ [(p, r)]))
      [("debug", Value.vBool false)] true [] {} "docman_service"
      = ({}, .httpError 403 "Reload only available in debug mode") :=
  reload_gating_atomic _ _ _ _ _ _ _ (by decide)

/-! ## C8: resolver totality -/

/-- C8.  `load_router_from_path` never raises past its own boundary:
whenever it returns `None` it has recorded a failure entry keyed by the
service name whose value is the human-readable message
"Failed to load router for {name}: {cause}"; each of the three failure
conditions — unresolvable locator, exception during the loaded module's
initialization, missing attribute — returns `None`; a `None` return
leaves `loaded_routers` untouched, and a returned router is recorded
under the service name. -/
theorem resolver_totality (world : RouterConfig → ResolveOutcome)
    (st : LoaderState) (cfg : RouterConfig) :
    ((load_router_from_path world st cfg).2 = none →
      ∃ c, dlookup cfg.service_name (load_router_from_path world st cfg).1.failed_loads
        = some (fail_msg cfg c))
    ∧ (world cfg = .specFail → (load_router_from_path world st cfg).2 = none)
    ∧ (∀ m, world cfg = .execRaises m → (load_router_from_path world st cfg).2 = none)
    ∧ (∀ attrs, world cfg = .moduleOk attrs → dlookup cfg.router_name attrs = none →
        (load_router_from_path world st cfg).2 = none)
    ∧ ((load_router_from_path world st cfg).2 = none →
        (load_router_from_path world st cfg).1.loaded_routers = st.loaded_routers)
    ∧ (∀ r, (load_router_from_path world st cfg).2 = some r →
        dlookup cfg.service_name (load_router_from_path world st cfg).1.loaded_routers
          = some r) := by
  cases hw : world cfg with
  | specFail =>
    refine ⟨fun _ => ⟨"Could not load spec from " ++ cfg.module_path, ?_⟩, ?_, ?_, ?_, ?_, ?_⟩ <;>
      simp [load_router_from_path, hw, record_failure, dlookup_dictSet_self]
  | execRaises m =>
    refine ⟨fun _ => ⟨m, ?_⟩, ?_, ?_, ?_, ?_, ?_⟩ <;>
      simp [load_router_from_path, hw, record_failure, dlookup_dictSet_self]
  | moduleOk attrs =>
    cases hat : dlookup cfg.router_name attrs with
    | none =>
      refine ⟨fun _ => ⟨missing_attr_msg cfg, ?_⟩, ?_, ?_, ?_, ?_, ?_⟩ <;>
        simp [load_router_from_path, hw, hat, record_failure, dlookup_dictSet_self]
    | some r0 =>
      by_cases hf : (truthy_tokens cfg.include_endpoints
          || truthy_tokens cfg.exclude_endpoints) = true
      · refine ⟨?_, ?_, ?_, ?_, ?_, ?_⟩ <;>
          simp [load_router_from_path, hw, hat, hf, dlookup_dictSet_self]
      · simp only [Bool.not_eq_true] at hf
        refine ⟨?_, ?_, ?_, ?_, ?_, ?_⟩ <;>
          simp [load_router_from_path, hw, hat, hf, dlookup_dictSet_self]

theorem resolver_totality_witness :
    (load_router_from_path (fun _ => .specFail) {}
        { service_name := "s", module_path := "m" }).2 = none
    ∧ ∃ c, dlookup "s"
        (load_router_from_path (fun _ => .specFail) {}
          { service_name := "s", module_path := "m" }).1.failed_loads
        = some (fail_msg { service_name := "s", module_path := "m" } c) :=
  ⟨(resolver_totality (fun _ => .specFail) {} { service_name := "s", module_path := "m" }).2.1
     rfl,
   (resolver_totality (fun _ => .specFail) {} { service_name := "s", module_path := "m" }).1
     ((resolver_totality (fun _ => .specFail) {} { service_name := "s", module_path := "m" }).2.1
       rfl)⟩

/-! ## C1: Mount Registry membership -/

theorem load_step_loaded_lookup (oc : ResolveOutcome) (st : LoaderState)
    (cfg : RouterConfig) (n : String) :
    (dlookup n (load_router_from_path (fun _ => oc) st cfg).1.loaded_routers).isSome
      ↔ ((n = cfg.service_name ∧ load_succeeds cfg oc = true)
          ∨ (dlookup n st.loaded_routers).isSome) := by
  cases oc with
  | specFail => simp [load_router_from_path, record_failure, load_succeeds]
  | execRaises m => simp [load_router_from_path, record_failure, load_succeeds]
  | moduleOk attrs =>
    cases hat : dlookup cfg.router_name attrs with
    | none => simp [load_router_from_path, hat, record_failure, load_succeeds]
    | some r =>
      by_cases hf : (truthy_tokens cfg.include_endpoints
          || truthy_tokens cfg.exclude_endpoints) = true
      · simp only [load_router_from_path, hat, hf, if_true]
        rw [dlookup_dictSet]
        by_cases hn : n = cfg.service_name <;> simp [hn, load_succeeds, hat]
      · simp only [Bool.not_eq_true] at hf
        simp only [load_router_from_path, hat, hf, Bool.false_eq_true, if_false]
        rw [dlookup_dictSet]
        by_cases hn : n = cfg.service_name <;> simp [hn, load_succeeds, hat]

theorem load_step_failed_lookup (oc : ResolveOutcome) (st : LoaderState)
    (cfg : RouterConfig) (n : String) :
    (dlookup n (load_router_from_path (fun _ => oc) st cfg).1.failed_loads).isSome
      ↔ ((n = cfg.service_name ∧ load_succeeds cfg oc = false)
          ∨ (dlookup n st.failed_loads).isSome) := by
  cases oc with
  | specFail =>
    simp only [load_router_from_path, record_failure, load_succeeds]
    rw [dlookup_dictSet]
    by_cases hn : n = cfg.service_name <;> simp [hn]
  | execRaises m =>
    simp only [load_router_from_path, record_failure, load_succeeds]
    rw [dlookup_dictSet]
    by_cases hn : n = cfg.service_name <;> simp [hn]
  | moduleOk attrs =>
    cases hat : dlookup cfg.router_name attrs with
    | none =>
      simp only [load_router_from_path, hat, record_failure, load_succeeds]
      rw [dlookup_dictSet]
      by_cases hn : n = cfg.service_name <;> simp [hn, hat]
    | some r =>
      by_cases hf : (truthy_tokens cfg.include_endpoints
          || truthy_tokens cfg.exclude_endpoints) = true
      · simp [load_router_from_path, hat, hf, load_succeeds]
      · simp only [Bool.not_eq_true] at hf
        simp [load_router_from_path, hat, hf, load_succeeds]

theorem run_loads_loaded_lookup (evs : List (RouterConfig × ResolveOutcome))
    (st : LoaderState) (n : String) :
    (dlookup n (run_loads st evs).loaded_routers).isSome
      ↔ ((dlookup n st.loaded_routers).isSome
          ∨ ∃ ev ∈ evs, n = ev.1.service_name ∧ load_succeeds ev.1 ev.2 = true) := by
  induction evs generalizing st with
  | nil => simp [run_loads]
  | cons ev rest ih =>
    simp only [run_loads]
    rw [ih, load_step_loaded_lookup]
    simp only [List.mem_cons]
    constructor
    · rintro (h | h)
      · rcases h with (⟨h1, h2⟩ | h3)
        · exact Or.inr ⟨ev, Or.inl rfl, h1, h2⟩
        · exact Or.inl h3
      · rcases h with ⟨e, he, h1, h2⟩
        exact Or.inr ⟨e, Or.inr he, h1, h2⟩
    · rintro (h | ⟨e, (rfl | he), h1, h2⟩)
      · exact Or.inl (Or.inr h)
      · exact Or.inl (Or.inl ⟨h1, h2⟩)
      · exact Or.inr ⟨e, he, h1, h2⟩

theorem run_loads_failed_lookup (evs : List (RouterConfig × ResolveOutcome))
    (st : LoaderState) (n : String) :
    (dlookup n (run_loads st evs).failed_loads).isSome
      ↔ ((dlookup n st.failed_loads).isSome
          ∨ ∃ ev ∈ evs, n = ev.1.service_name ∧ load_succeeds ev.1 ev.2 = false) := by
  induction evs generalizing st with
  | nil => simp [run_loads]
  | cons ev rest ih =>
    simp only [run_loads]
    rw [ih, load_step_failed_lookup]
    simp only [List.mem_cons]
    constructor
    · rintro (h | h)
      · rcases h with (⟨h1, h2⟩ | h3)
        · exact Or.inr ⟨ev, Or.inl rfl, h1, h2⟩
        · exact Or.inl h3
      · rcases h with ⟨e, he, h1, h2⟩
        exact Or.inr ⟨e, Or.inr he, h1, h2⟩
    · rintro (h | ⟨e, (rfl | he), h1, h2⟩)
      · exact Or.inl (Or.inr h)
      · exact Or.inl (Or.inl ⟨h1, h2⟩)
      · exact Or.inr ⟨e, he, h1, h2⟩

/-- C1 counterexample: a load of service "s" that succeeds and a later
one that fails leave "s" present in `loaded_routers` and in
`failed_loads` at the same time — recording the failure did not remove
the prior loaded entry. -/
theorem mount_registry_exclusivity_counterexample :
    (dlookup "s" (run_loads {}
        [({ service_name := "s", module_path := "m" }, .moduleOk [("router", ⟨"/s", []⟩)]),
         ({ service_name := "s", module_path := "m" }, .specFail)]).loaded_routers).isSome
      = true
    ∧ (dlookup "s" (run_loads {}
        [({ service_name := "s", module_path := "m" }, .moduleOk [("router", ⟨"/s", []⟩)]),
         ({ service_name := "s", module_path := "m" }, .specFail)]).failed_loads).isSome
      = true := by
  decide

/-- C1 (amended).  After any sequence of `load_router_from_path` calls
starting from a fresh loader, a service name is in `loaded_routers` iff
some call for it succeeded and in `failed_loads` iff some call for it
failed; neither kind of call removes the other map's entry, so a name
with both a past success and a past failure is present in both maps. -/
theorem mount_registry_membership (evs : List (RouterConfig × ResolveOutcome)) (n : String) :
    ((dlookup n (run_loads {} evs).loaded_routers).isSome
      ↔ ∃ ev ∈ evs, n = ev.1.service_name ∧ load_succeeds ev.1 ev.2 = true)
    ∧ ((dlookup n (run_loads {} evs).failed_loads).isSome
      ↔ ∃ ev ∈ evs, n = ev.1.service_name ∧ load_succeeds ev.1 ev.2 = false) := by
  constructor
  · rw [run_loads_loaded_lookup]; simp [dlookup]
  · rw [run_loads_failed_lookup]; simp [dlookup]

/-! ## C2: load-all result-map totality -/

theorem load_all_go_keys (world : RouterConfig → ResolveOutcome) (mount : MountFn)
    (configs : List RouterConfig) (st : GState) (results : List (String × Bool))
    (n : String) :
    (dlookup n (load_all_go world mount st results configs).2).isSome
      ↔ ((dlookup n results).isSome ∨ n ∈ configs.map (fun c => c.service_name)) := by
  induction configs generalizing st results with
  | nil => simp [load_all_go]
  | cons cfg rest ih =>
    simp only [load_all_go]
    rw [ih, dlookup_dictSet]
    by_cases hn : n = cfg.service_name <;> simp [hn]

/-- C2.  For every import world and every mounting behaviour — including
ones that make individual loads fail or raise — the result map of
`load_all_routers` has an entry exactly for each service name occurring
in the input config list: one config's failure or raised exception never
prevents the remaining configs from being processed. -/
theorem load_all_results_total (world : RouterConfig → ResolveOutcome) (mount : MountFn)
    (st : GState) (configs : List RouterConfig) (n : String) :
    (dlookup n (load_all_routers world mount st configs).2).isSome
      ↔ n ∈ configs.map (fun c => c.service_name) := by
  rw [load_all_routers, load_all_go_keys]; simp [dlookup]

/-! ## C9: filter purity with respect to its input -/

/-- The loop of `_filter_router_endpoints` at the level of the store of
live router objects (a router is identified by its index, in allocation
order): each iteration appends one surviving route to the routes list of
the router at index `j` (`new_router.routes.append(route)`) and touches
no other router. -/
def store_filter_loop (cfg : RouterConfig) (j : Nat) :
    List Router → List Route → List Router
  | hp, [] => hp
  | hp, r :: rest =>
    store_filter_loop cfg j
      (if should_include cfg r
       then hp.set j
         { hp.getD j ⟨"", []⟩ with routes := (hp.getD j ⟨"", []⟩).routes ++ [r] }
       else hp) rest

/-- `_filter_router_endpoints` on the store: read the original router at
index `i`, allocate a fresh router carrying the config's mount path at
the next free index, run the loop over the original's routes, and
return the new store together with the new router's index. -/
def filter_router_endpoints_store (cfg : RouterConfig) (hp : List Router) (i : Nat) :
    List Router × Nat :=
  (store_filter_loop cfg hp.length (hp ++ [{ pfx := cfg.pfx, routes := [] }])
      (hp.getD i ⟨"", []⟩).routes,
    hp.length)

theorem store_filter_loop_frame (cfg : RouterConfig) (j : Nat) (routes : List Route)
    (hp : List Router) (k : Nat) (hk : k ≠ j) :
    (store_filter_loop cfg j hp routes)[k]? = hp[k]? := by
  induction routes generalizing hp with
  | nil => simp [store_filter_loop]
  | cons r rest ih =>
    by_cases h : should_include cfg r = true
    · rw [store_filter_loop, if_pos h, ih, List.getElem?_set_ne (Ne.symm hk)]
    · rw [store_filter_loop, if_neg h, ih]

theorem store_filter_loop_at (cfg : RouterConfig) (routes : List Route)
    (j : Nat) (hp : List Router) (hj : j < hp.length) :
    (store_filter_loop cfg j hp routes)[j]?
      = some { hp.getD j ⟨"", []⟩ with
                routes := (hp.getD j ⟨"", []⟩).routes
                  ++ routes.filter (should_include cfg) } := by
  induction routes generalizing hp with
  | nil =>
    rw [store_filter_loop, List.getElem?_eq_getElem hj]
    simp [List.getD_eq_getElem?_getD, List.getElem?_eq_getElem hj]
  | cons r rest ih =>
    by_cases h : should_include cfg r = true
    · rw [store_filter_loop, if_pos h,
        ih _ (by rw [List.length_set]; exact hj)]
      rw [List.getD_eq_getElem?_getD, List.getElem?_set_self hj]
      simp [List.filter_cons, h, List.getD_eq_getElem?_getD]
    · rw [store_filter_loop, if_neg h, ih _ hj]
      simp [List.filter_cons, h]

/-- C9.  Producing the filtered collection never mutates any
pre-existing router object: every index below the original store's
length — the input router's in particular — holds the same router
afterwards; the result router is allocated at a fresh index, distinct
from the input's; and the fresh router's content is exactly the pure
filtered collection. -/
theorem filter_purity (cfg : RouterConfig) (hp : List Router) (i : Nat) :
    (∀ k, k < hp.length →
        (filter_router_endpoints_store cfg hp i).1[k]? = hp[k]?)
    ∧ (filter_router_endpoints_store cfg hp i).2 = hp.length
    ∧ (i < hp.length → (filter_router_endpoints_store cfg hp i).2 ≠ i)
    ∧ (filter_router_endpoints_store cfg hp i).1[(filter_router_endpoints_store cfg hp i).2]?
        = some (filter_router_endpoints cfg (hp.getD i ⟨"", []⟩)) := by
  refine ⟨?_, rfl, ?_, ?_⟩
  · intro k hk
    show (store_filter_loop cfg hp.length (hp ++ [{ pfx := cfg.pfx, routes := [] }])
        (hp.getD i ⟨"", []⟩).routes)[k]? = hp[k]?
    rw [store_filter_loop_frame _ _ _ _ _ (Nat.ne_of_lt hk)]
    exact List.getElem?_append_left hk
  · intro hi hc
    rw [show (filter_router_endpoints_store cfg hp i).2 = hp.length from rfl] at hc
    omega
  · show (store_filter_loop cfg hp.length (hp ++ [{ pfx := cfg.pfx, routes := [] }])
        (hp.getD i ⟨"", []⟩).routes)[hp.length]?
      = some (filter_router_endpoints cfg (hp.getD i ⟨"", []⟩))
    rw [store_filter_loop_at _ _ _ _ (by simp), filter_router_endpoints_eq_filter]
    simp [List.getD_eq_getElem?_getD, List.getElem?_append]

theorem filter_purity_witness :
    (filter_router_endpoints_store
        { service_name := "s", module_path := "m", pfx := "/s",
          include_endpoints := some ["/users"] }
        [⟨"/orig", [⟨"/users", "u"⟩, ⟨"/admin", "a"⟩]⟩] 0).1[0]?
      = some ⟨"/orig", [⟨"/users", "u"⟩, ⟨"/admin", "a"⟩]⟩
    ∧ (filter_router_endpoints_store
        { service_name := "s", module_path := "m", pfx := "/s",
          include_endpoints := some ["/users"] }
        [⟨"/orig", [⟨"/users", "u"⟩, ⟨"/admin", "a"⟩]⟩] 0).2 ≠ 0 :=
  ⟨(filter_purity
      { service_name := "s", module_path := "m", pfx := "/s",
        include_endpoints := some ["/users"] }
      [⟨"/orig", [⟨"/users", "u"⟩, ⟨"/admin", "a"⟩]⟩] 0).1 0 (by decide),
   (filter_purity
      { service_name := "s", module_path := "m", pfx := "/s",
        include_endpoints := some ["/users"] }
      [⟨"/orig", [⟨"/users", "u"⟩, ⟨"/admin", "a"⟩]⟩] 0).2.2.1 (by decide)⟩

/-! ## C10: config injection -/

theorem inject_env_writes_nil (n : String) (e : List (String × String)) :
    inject_env_writes n [] e = e := rfl

theorem inject_env_writes_cons (n : String) (kv : String × Value)
    (rest : List (String × Value)) (e : List (String × String)) :
    inject_env_writes n (kv :: rest) e
      = inject_env_writes n rest (dictSet (env_key n kv.1) (pyStr kv.2) e) := rfl

theorem inject_writes_preserve (service_name : String) (sc : List (String × Value))
    (e : List (String × String)) (K : String)
    (h : ∀ kv ∈ sc, env_key service_name kv.1 ≠ K) :
    dlookup K (inject_env_writes service_name sc e) = dlookup K e := by
  induction sc generalizing e with
  | nil => rw [inject_env_writes_nil]
  | cons kv rest ih =>
    rw [inject_env_writes_cons,
      ih _ (fun kv2 hm => h kv2 (List.mem_cons_of_mem _ hm))]
    exact dlookup_dictSet_ne _ _ (Ne.symm (h kv (List.mem_cons_self _ _)))

theorem inject_writes_lookup (service_name : String) (sc : List (String × Value))
    (e : List (String × String)) (k : String) (v : Value)
    (hnd : (sc.map (fun kv => env_key service_name kv.1)).Nodup)
    (hkv : dlookup k sc = some v) :
    dlookup (env_key service_name k) (inject_env_writes service_name sc e)
      = some (pyStr v) := by
  induction sc generalizing e with
  | nil => simp [dlookup] at hkv
  | cons kv rest ih =>
    by_cases hk : kv.1 = k
    · have hv : kv.2 = v := by
        rw [dlookup, if_pos hk] at hkv
        exact Option.some.inj hkv
      subst hk
      subst hv
      rw [inject_env_writes_cons, inject_writes_preserve]
      · exact dlookup_dictSet_self _ _ _
      · intro kv2 hm heq
        have hni : env_key service_name kv.1
            ∉ rest.map (fun kv => env_key service_name kv.1) :=
          (List.nodup_cons.mp hnd).1
        exact hni (heq ▸ List.mem_map_of_mem _ hm)
    · have hkv2 : dlookup k rest = some v := by
        rw [dlookup, if_neg hk] at hkv
        exact hkv
      rw [inject_env_writes_cons]
      exact ih _ (List.nodup_cons.mp hnd).2 hkv2

/-- C10.  `inject_service_config` with no explicit target writes, for
each key of the service's effective configuration, an entry named
{SERVICE_NAME_UPPERCASED}_{KEY_UPPERCASED} with value `str(value)` into
the process environment, and records the effective configuration under
the service name in `injected_configs`; `setup_service_config` performs
exactly this injection into the shared process environment, so after
setup every key of the effective configuration has its override entry.
The hypothesis asks the keys' uppercased environment names to be
pairwise distinct — true of any dict whose keys differ other than by
case. -/
theorem inject_service_config_spec (st : CMState) (service_name : String)
    (hnd : (((get_service_config st.os_env st.config_data service_name).2).map
        (fun kv => env_key service_name kv.1)).Nodup) :
    (∀ k v,
        dlookup k (get_service_config st.os_env st.config_data service_name).2 = some v →
        dlookup (env_key service_name k)
          (inject_service_config st service_name none).1.os_env = some (pyStr v))
    ∧ dlookup service_name (inject_service_config st service_name none).1.injected_configs
        = some (get_service_config st.os_env st.config_data service_name).2
    ∧ (inject_service_config st service_name none).1.os_env
        = inject_env_writes service_name
            (get_service_config st.os_env st.config_data service_name).2 st.os_env
    ∧ (∀ k v,
        dlookup k (get_service_config st.os_env st.config_data service_name).2 = some v →
        dlookup (env_key service_name k)
          (setup_service_config st service_name).1.os_env = some (pyStr v)) := by
  refine ⟨?_, ?_, rfl, ?_⟩
  · intro k v hkv
    exact inject_writes_lookup _ _ _ _ _ hnd hkv
  · exact dlookup_dictSet_self _ _ _
  · intro k v hkv
    exact inject_writes_lookup _ _ _ _ _ hnd hkv

theorem inject_service_config_spec_witness :
    dlookup (env_key "svc" "timeout")
      (inject_service_config
        { config_data := ⟨[], [("svc", [("timeout", Value.vInt 30)])]⟩ } "svc" none).1.os_env
      = some (pyStr (Value.vInt 30)) :=
  (inject_service_config_spec
      { config_data := ⟨[], [("svc", [("timeout", Value.vInt 30)])]⟩ } "svc"
      (by decide)).1 "timeout" (Value.vInt 30) (by decide)
